import Mathlib

/-!
Shallow embedding of the video-party room service (package `room`):
the `Message` envelope, `Client` close semantics, the `Room` event-loop
operations (`registerClient`, `unregisterClient`, `sendMessage`, `cleanup`)
and the `Hub` directory (`getRoom`), translated from the Go source.

Go channels are modelled as explicit queues (`List Message`) with a
closed flag; a send on a closed channel and a close of a closed channel
are runtime faults, modelled by `Except.error`.  `time.Time` values are
abstract `Nat` instants; the float64 playback time is modelled as `Int`
(no claim depends on float semantics).  Clients are identified by a `Nat`
id standing for the `*Client` pointer.
-/

namespace VideoRoom

/-- Command-type constants from the source (`CommandPlay` .. `CommandVideoChange`). -/
def CommandPlay : String := "play"

def CommandPause : String := "pause"

def CommandSeek : String := "seek"

def CommandSync : String := "sync"

def CommandError : String := "error"

def CommandVideoChange : String := "change-video"

/-- Capacity of a client's buffered outbound channel: `make(chan *Message, 10)`. -/
def sendCap : Nat := 10

/-- The `Message` struct.  `From` is the `*Client` origin pointer (modelled by
client id, `none` = nil), tagged `json:"-"`.  `payload` is an unexported Go
field, hence invisible to `encoding/json`. -/
structure Message where
  type : String
  From : Option Nat
  time : Int
  timestamp : Nat
  payload : String
deriving DecidableEq

/-- The `Client` struct: its buffered `send` channel is a queue plus a
closed flag, and `connClosed` records that `Conn.Close()` ran. -/
structure Client where
  id : Nat
  sendQueue : List Message
  sendClosed : Bool
  connClosed : Bool
deriving DecidableEq

/-- `Client.close` (lines 45-54): a `select` that receives from `c.send`
if a receive is ready (queue non-empty, or the channel already closed),
and only in the `default` branch closes the channel; then `c.Conn.Close()`.
Receiving from a non-empty channel dequeues one message; receiving from a
closed empty channel yields the zero value and changes nothing. -/
def Client.close (c : Client) : Client :=
  match c.sendQueue with
  | _ :: rest => { c with sendQueue := rest, connClosed := true }
  | [] =>
      if c.sendClosed then { c with connClosed := true }
      else { c with sendClosed := true, connClosed := true }

/-- The command-kind validation switch in `receiveHandler` (lines 89-95):
exactly `CommandPlay, CommandPause, CommandSeek, CommandSync,
CommandVideoChange` are accepted. -/
def recognizedKind (t : String) : Bool :=
  t = CommandPlay || t = CommandPause || t = CommandSeek ||
  t = CommandSync || t = CommandVideoChange

/-- One iteration of `Client.receiveHandler`'s body (lines 82-99) after a
frame has been deserialized into `msg`: validate the command kind, then
stamp `msg.From = c` and `msg.Timestamp = time.Now()` and submit the
message (returned as `some`); an unrecognized kind is discarded (`none`,
the loop continues). -/
def receiveFrame (c : Nat) (now : Nat) (msg : Message) : Option Message :=
  if recognizedKind msg.type then
    some { msg with From := some c, timestamp := now }
  else none

/-- `json.Marshal` of a `Message` (used by `sendHandler`, line 118),
as the ordered list of serialized key/value pairs: `Type` under
`json:"type"`, `Time` under `json:"time,omitempty"` (omitted at the zero
value), `Timestamp` under `json:"timestamp"`; `From` is tagged `json:"-"`
and `payload` is unexported, so neither is emitted. -/
def marshalMessage (m : Message) : List (String × String) :=
  [("type", m.type)]
    ++ (if m.time = 0 then [] else [("time", toString m.time)])
    ++ [("timestamp", toString m.timestamp)]

/-- The `Room` struct: `clients` is `map[*Client]bool`, with `none`
standing for the nil map installed by `cleanup`; `cleaned` is the
`atomic.Bool` single-use guard; `cancelled` records `cancel()`;
`running` records that `Run()` started the event loop. -/
structure Room where
  clients : Option (List Client)
  cleaned : Bool
  cancelled : Bool
  running : Bool
deriving DecidableEq

/-- `NewRoom` (lines 151-162): fresh context, empty client map. -/
def NewRoom : Room :=
  { clients := some [], cleaned := false, cancelled := false, running := false }

/-- `Room.Run` (lines 225-241) starts the event-loop goroutine. -/
def Room.Run (r : Room) : Room := { r with running := true }

/-- `Room.registerClient` (lines 188-193): `r.clients[client] = true`.
Writing into a nil map is a Go runtime panic. -/
def Room.registerClient (r : Room) (c : Client) : Except String Room :=
  match r.clients with
  | none => .error "assignment to entry in nil map"
  | some cs => .ok { r with clients := some (cs ++ [c]) }

/-- `Room.unregisterClient` (lines 195-207): if present, delete from the
map, `client.close()`, and cancel the context when the set empties.
Returns the removed client's post-`close` state alongside the room. -/
def Room.unregisterClient (r : Room) (cid : Nat) : Room × Option Client :=
  match r.clients with
  | none => (r, none)
  | some cs =>
      match cs.find? (fun x => x.id = cid) with
      | none => (r, none)
      | some cl =>
          let rest := cs.filter (fun x => x.id ≠ cid)
          ({ r with clients := some rest,
                    cancelled := r.cancelled || rest.isEmpty },
           some cl.close)

/-- The per-client body of `Room.sendMessage`'s loop (lines 213-222):
skip the origin (`client == message.From`); otherwise
`select { case client.send <- message: default: client.close() }`.
A send on a closed channel is always ready and panics; with the channel
open the send is ready iff the buffer has space, else `default` runs
`client.close()`. -/
def deliverTo (m : Message) (c : Client) : Except String Client :=
  if some c.id = m.From then .ok c
  else if c.sendClosed then .error "send on closed channel"
  else if sendCap ≤ c.sendQueue.length then .ok c.close
  else .ok { c with sendQueue := c.sendQueue ++ [m] }

/-- The iteration of `Room.sendMessage` over the client set, stopping at
the first fault. -/
def deliverAll (m : Message) : List Client → Except String (List Client)
  | [] => .ok []
  | c :: cs =>
      match deliverTo m c with
      | .error e => .error e
      | .ok c' =>
          match deliverAll m cs with
          | .error e => .error e
          | .ok cs' => .ok (c' :: cs')

/-- `Room.sendMessage` (lines 209-223).  Ranging over a nil map performs
no iterations. -/
def Room.sendMessage (r : Room) (m : Message) : Except String Room :=
  match r.clients with
  | none => .ok r
  | some cs =>
      match deliverAll m cs with
      | .error e => .error e
      | .ok cs' => .ok { r with clients := some cs' }

/-- The loop body of `Room.cleanup` (lines 179-182): for each remaining
client, `close(client.send)` — a Go runtime panic if the channel is
already closed — then `client.Conn.Close()`.  Returns the closed
clients' final states. -/
def closeAllClients : List Client → Except String (List Client)
  | [] => .ok []
  | c :: cs =>
      if c.sendClosed then .error "close of closed channel"
      else
        match closeAllClients cs with
        | .error e => .error e
        | .ok cs' => .ok ({ c with sendClosed := true, connClosed := true } :: cs')

/-- `Room.cleanup` (lines 170-186): the `cleaned.CompareAndSwap(false, true)`
guard makes a second call return at once; the first call closes every
remaining client's channel and connection and sets `r.clients = nil`.
The closed clients' final states are returned alongside the room. -/
def Room.cleanup (r : Room) : Except String (Room × List Client) :=
  if r.cleaned then .ok (r, [])
  else
    match closeAllClients (r.clients.getD []) with
    | .error e => .error e
    | .ok closed => .ok ({ r with cleaned := true, clients := none }, closed)

/-- The `Hub` struct: `Rooms map[string]*Room`, modelled as an
association list. -/
structure Hub where
  Rooms : List (String × Room)
deriving DecidableEq

/-- `Hub.getRoom` (lines 249-284): reject the empty key; return an
existing room unchanged; otherwise create one room, store it under the
key, start its event loop, and return it. -/
def Hub.getRoom (h : Hub) (key : String) : Option Room × Hub :=
  if key = "" then (none, h)
  else
    match h.Rooms.lookup key with
    | some room => (some room, h)
    | none =>
        let room := NewRoom.Run
        (some room, ⟨h.Rooms ++ [(key, room)]⟩)

/-! ### Helper lemmas -/

theorem lookup_append_none (l : List (String × Room)) (key : String) (r : Room)
    (h : l.lookup key = none) : (l ++ [(key, r)]).lookup key = some r := by
  induction l with
  | nil => simp [List.lookup]
  | cons p l ih =>
      obtain ⟨k, v⟩ := p
      by_cases hkey : key = k
      · subst hkey
        simp [List.lookup] at h
      · have hk : (key == k) = false := beq_eq_false_iff_ne.mpr hkey
        simp only [List.lookup, List.cons_append, hk] at h ⊢
        exact ih h

theorem Client.close_nonempty (c : Client) (a : Message) (rest : List Message)
    (hq : c.sendQueue = a :: rest) :
    c.close = { c with sendQueue := rest, connClosed := true } := by
  unfold Client.close
  rw [hq]

theorem deliverAll_get (m : Message) (cs cs' : List Client)
    (h : deliverAll m cs = .ok cs') :
    cs'.length = cs.length ∧
    ∀ i (hi : i < cs.length) (hi' : i < cs'.length),
      deliverTo m (cs.get ⟨i, hi⟩) = .ok (cs'.get ⟨i, hi'⟩) := by
  induction cs generalizing cs' with
  | nil =>
      simp only [deliverAll] at h
      cases h
      exact ⟨rfl, fun i hi _ => absurd hi (by simp)⟩
  | cons c cs ih =>
      simp only [deliverAll] at h
      cases hd : deliverTo m c with
      | error e => rw [hd] at h; cases h
      | ok c₀ =>
          rw [hd] at h
          cases ht : deliverAll m cs with
          | error e => rw [ht] at h; cases h
          | ok cs₀ =>
              rw [ht] at h
              cases h
              obtain ⟨hlen, hget⟩ := ih cs₀ ht
              refine ⟨by simp [hlen], ?_⟩
              intro i hi hi'
              cases i with
              | zero => simpa using hd
              | succ j =>
                  exact hget j (Nat.lt_of_succ_lt_succ hi) (Nat.lt_of_succ_lt_succ hi')

theorem deliverTo_error_eq (m : Message) (c : Client) (e : String)
    (h : deliverTo m c = .error e) :
    e = "send on closed channel" ∧ c.sendClosed = true ∧ some c.id ≠ m.From := by
  unfold deliverTo at h
  split at h
  · cases h
  · next hne =>
      split at h
      · next hcl => cases h; exact ⟨rfl, hcl, hne⟩
      · split at h <;> cases h

theorem deliverAll_closed_error (m : Message) (cs : List Client)
    (hex : ∃ c ∈ cs, c.sendClosed = true ∧ some c.id ≠ m.From) :
    deliverAll m cs = .error "send on closed channel" := by
  induction cs with
  | nil => simp at hex
  | cons c cs ih =>
      obtain ⟨c₀, hmem, hcl, hne⟩ := hex
      rcases List.mem_cons.mp hmem with rfl | hmem₂
      · have hd : deliverTo m c₀ = .error "send on closed channel" := by
          unfold deliverTo
          rw [if_neg hne, if_pos hcl]
        simp only [deliverAll, hd]
      · cases hd : deliverTo m c with
        | error e =>
            have he := (deliverTo_error_eq m c e hd).1
            simp only [deliverAll, hd, he]
        | ok c' =>
            have ht := ih ⟨c₀, hmem₂, hcl, hne⟩
            simp only [deliverAll, hd, ht]

theorem deliverAll_open_ok (m : Message) (cs : List Client)
    (h : ∀ c ∈ cs, c.sendClosed = false) :
    ∃ cs', deliverAll m cs = .ok cs' := by
  induction cs with
  | nil => exact ⟨[], rfl⟩
  | cons c cs ih =>
      obtain ⟨cs', ht⟩ := ih fun x hx => h x (List.mem_cons_of_mem c hx)
      have hc : c.sendClosed = false := h c (List.mem_cons_self c cs)
      by_cases horig : some c.id = m.From
      · exact ⟨c :: cs', by simp only [deliverAll, deliverTo, if_pos horig, ht]⟩
      · by_cases hfull : sendCap ≤ c.sendQueue.length
        · exact ⟨c.close :: cs', by
            simp only [deliverAll, deliverTo, if_neg horig, hc, if_pos hfull]
            simp [ht]⟩
        · exact ⟨{ c with sendQueue := c.sendQueue ++ [m] } :: cs', by
            simp only [deliverAll, deliverTo, if_neg horig, hc, if_neg hfull]
            simp [ht]⟩

theorem closeAllClients_open (cs : List Client)
    (h : ∀ c ∈ cs, c.sendClosed = false) :
    closeAllClients cs =
      .ok (cs.map fun c => { c with sendClosed := true, connClosed := true }) := by
  induction cs with
  | nil => rfl
  | cons c cs ih =>
      have hc : c.sendClosed = false := h c (List.mem_cons_self c cs)
      have ht := ih fun x hx => h x (List.mem_cons_of_mem c hx)
      simp only [closeAllClients, hc, ht, List.map_cons]
      simp

theorem closeAllClients_closed_error (cs : List Client)
    (hex : ∃ c ∈ cs, c.sendClosed = true) :
    closeAllClients cs = .error "close of closed channel" := by
  induction cs with
  | nil => simp at hex
  | cons c cs ih =>
      obtain ⟨c₀, hmem, hcl⟩ := hex
      rcases List.mem_cons.mp hmem with rfl | hmem₂
      · simp only [closeAllClients, hcl]
        simp
      · cases hc : c.sendClosed with
        | true => simp only [closeAllClients, hc]; simp
        | false =>
            have ht := ih ⟨c₀, hmem₂, hcl⟩
            simp only [closeAllClients, hc, ht]
            simp

/-! ### Concrete states used by witnesses and counterexamples -/

/-- A parsed frame with kind `seek`. -/
def mSeek : Message := { type := "seek", From := none, time := 42, timestamp := 7, payload := "" }

/-! ### Claim C3 -/

/-- Claim C3 counterexample: the claim counts `error` among the six
recognized kinds, but the validation switch in `receiveHandler` accepts
only `play`, `pause`, `seek`, `sync` and `change-video`; a frame whose
kind is `error` is discarded (`none`), not stamped and forwarded. -/
theorem receiveFrame_drops_error_kind :
    receiveFrame 7 42
        { type := CommandError, From := none, time := 1, timestamp := 0, payload := "" }
      = none := by decide

/-- Claim C3 (amended): the inbound loop recognizes exactly the five
command kinds `play`, `pause`, `seek`, `sync`, `change-video`; a frame
with one of these kinds is stamped with its origin and the server receipt
time and submitted, while any other kind (including `error`) is discarded
non-fatally. -/
theorem receiveFrame_recognized_kinds (c now : Nat) (m : Message) :
    ((receiveFrame c now m).isSome ↔
      (m.type = CommandPlay ∨ m.type = CommandPause ∨ m.type = CommandSeek ∨
       m.type = CommandSync ∨ m.type = CommandVideoChange)) ∧
    (∀ m', receiveFrame c now m = some m' →
      m' = { m with From := some c, timestamp := now }) := by
  constructor
  · unfold receiveFrame
    split
    · next hrec =>
        simp only [Option.isSome_some, true_iff]
        simpa [recognizedKind, or_assoc] using hrec
    · next hrec =>
        simp only [Option.isSome_none, Bool.false_eq_true, false_iff]
        intro hd
        exact hrec (by simpa [recognizedKind, or_assoc] using hd)
  · intro m' hm'
    unfold receiveFrame at hm'
    split at hm'
    · exact (Option.some.injEq _ _ ▸ hm' :).symm
    · cases hm'

/-- Claim C3 witness: a `seek` frame is accepted and stamped. -/
theorem receiveFrame_recognized_kinds_witness :
    (receiveFrame 2 9 mSeek).isSome = true ∧
    { type := "seek", From := some 2, time := 42, timestamp := 9, payload := "" }
      = { mSeek with From := some 2, timestamp := 9 } :=
  ⟨(receiveFrame_recognized_kinds 2 9 mSeek).1.mpr (Or.inr (Or.inr (Or.inl rfl))),
   (receiveFrame_recognized_kinds 2 9 mSeek).2 _ (by decide)⟩

/-! ### Claim C7 -/

/-- Claim C7: the submitted message's timestamp is server-assigned at
receipt (`msg.Timestamp = time.Now()`): two parsed frames equal except in
their timestamp field, processed at the same receipt time, yield the same
result. -/
theorem receiveFrame_timestamp_server_assigned (c now : Nat) (m₁ m₂ : Message)
    (ht : m₁.type = m₂.type) (hf : m₁.From = m₂.From)
    (hm : m₁.time = m₂.time) (hp : m₁.payload = m₂.payload) :
    receiveFrame c now m₁ = receiveFrame c now m₂ := by
  cases m₁
  cases m₂
  simp_all [receiveFrame]

/-- Claim C7 witness: two `seek` frames with client-supplied timestamps
`7` and `999` produce the same submitted message. -/
theorem receiveFrame_timestamp_server_assigned_witness :
    receiveFrame 1 50 mSeek
      = receiveFrame 1 50 { mSeek with timestamp := 999 } :=
  receiveFrame_timestamp_server_assigned 1 50 _ _ rfl rfl rfl rfl

/-! ### Claim C8 -/

/-- Claim C8: the wire form of a `Message` never includes the origin
(`From` is tagged `json:"-"`): serialization depends only on the type,
the optional playback time and the timestamp, and emits only those keys. -/
theorem marshalMessage_no_origin (m₁ m₂ : Message)
    (ht : m₁.type = m₂.type) (hm : m₁.time = m₂.time)
    (hs : m₁.timestamp = m₂.timestamp) :
    marshalMessage m₁ = marshalMessage m₂ ∧
    ∀ kv ∈ marshalMessage m₁, kv.1 = "type" ∨ kv.1 = "time" ∨ kv.1 = "timestamp" := by
  constructor
  · simp [marshalMessage, ht, hm, hs]
  · intro kv hkv
    by_cases h0 : m₁.time = 0
    · simp [marshalMessage, h0] at hkv
      rcases hkv with h | h <;> simp [h]
    · simp [marshalMessage, h0] at hkv
      rcases hkv with h | h | h <;> simp [h]

/-- Claim C8 witness: two messages equal except in their origin field
serialize to the same wire form. -/
theorem marshalMessage_no_origin_witness :
    marshalMessage { type := "play", From := some 3, time := 0, timestamp := 12, payload := "x" }
      = marshalMessage { type := "play", From := none, time := 0, timestamp := 12, payload := "x" } :=
  (marshalMessage_no_origin _ _ rfl rfl rfl).1

/-! ### Claim C6 -/

/-- Claim C6: `sendMessage` never enqueues a message onto the outbound
queue of the client recorded as its origin — the iteration skips the
sender (`client == message.From`), leaving the sender's state untouched. -/
theorem sendMessage_skips_origin (r r' : Room) (m : Message) (cs cs' : List Client)
    (hc : r.clients = some cs) (hc' : r'.clients = some cs')
    (h : r.sendMessage m = .ok r') :
    cs'.length = cs.length ∧
    ∀ i (hi : i < cs.length) (hi' : i < cs'.length),
      some (cs.get ⟨i, hi⟩).id = m.From → cs'.get ⟨i, hi'⟩ = cs.get ⟨i, hi⟩ := by
  unfold Room.sendMessage at h
  rw [hc] at h
  dsimp only at h
  cases hda : deliverAll m cs with
  | error e => rw [hda] at h; cases h
  | ok cs₀ =>
      rw [hda] at h
      cases h
      have hcs : cs₀ = cs' := by simpa using hc'
      subst hcs
      obtain ⟨hlen, hget⟩ := deliverAll_get m cs cs₀ hda
      refine ⟨hlen, ?_⟩
      intro i hi hi' horig
      have hd := hget i hi hi'
      unfold deliverTo at hd
      rw [if_pos horig] at hd
      injection hd with hd
      exact hd.symm

/-- Concrete clients and room for the C6 witness. -/
def wClientA : Client := { id := 0, sendQueue := [], sendClosed := false, connClosed := false }

def wClientB : Client := { id := 1, sendQueue := [], sendClosed := false, connClosed := false }

def wMsg : Message := { type := "play", From := some 0, time := 0, timestamp := 5, payload := "" }

def wRoom : Room :=
  { clients := some [wClientA, wClientB], cleaned := false, cancelled := false, running := true }

def wRoomOut : Room :=
  { wRoom with clients := some [wClientA, { wClientB with sendQueue := [wMsg] }] }

/-- Claim C6 witness: broadcasting `wMsg` (origin client 0) in a
two-client room leaves client 0 untouched. -/
theorem sendMessage_skips_origin_witness :
    [wClientA, { wClientB with sendQueue := [wMsg] }].get ⟨0, by decide⟩
      = [wClientA, wClientB].get ⟨0, by decide⟩ :=
  (sendMessage_skips_origin wRoom wRoomOut wMsg [wClientA, wClientB]
      [wClientA, { wClientB with sendQueue := [wMsg] }] rfl rfl rfl).2
    0 (by decide) (by decide) (by decide)

/-! ### Claim C1 -/

/-- A broadcastable filler message used to saturate a queue. -/
def fillMsg : Message := { type := "sync", From := none, time := 0, timestamp := 1, payload := "" }

/-- A client whose outbound queue is full (`sendCap = 10` messages). -/
def slowClient : Client :=
  { id := 2, sendQueue := List.replicate 10 fillMsg, sendClosed := false, connClosed := false }

def fastClient : Client := { id := 3, sendQueue := [], sendClosed := false, connClosed := false }

def c1Msg : Message := { type := "play", From := some 3, time := 0, timestamp := 9, payload := "" }

def c1Room : Room :=
  { clients := some [slowClient, fastClient], cleaned := false, cancelled := false, running := true }

/-- `slowClient` after the broadcast's drop branch ran `close()` on it:
one queued message is dequeued, the connection is closed, the queue stays
open. -/
def slowClientAfter : Client :=
  { slowClient with sendQueue := List.replicate 9 fillMsg, connClosed := true }

def c1RoomOut : Room := { c1Room with clients := some [slowClientAfter, fastClient] }

/-- Claim C1 counterexample: broadcasting to a room whose client 2 has a
full outbound queue runs `client.close()` but does not evict it — the
client is still in the room's client set afterwards, and its outbound
queue is still open (`close()` merely dequeued one message), contradicting
the claimed removal from the set and closing of the outbound path. -/
theorem sendMessage_full_queue_no_eviction :
    c1Room.sendMessage c1Msg = .ok c1RoomOut ∧
    (c1RoomOut.clients.getD []).length = 2 ∧
    ((c1RoomOut.clients.getD []).get ⟨0, by decide⟩).id = 2 ∧
    ((c1RoomOut.clients.getD []).get ⟨0, by decide⟩).sendClosed = false :=
  ⟨rfl, rfl, rfl, rfl⟩

/-- Claim C1 (amended): broadcasting `m` handles every client
independently of the others (so delivery to other clients is unaffected
by a slow reader), and a non-origin client with a full, open outbound
queue has `close()` run on it: its connection is closed, but it stays in
the client set and its outbound queue remains open. -/
theorem sendMessage_full_queue_drop (r r' : Room) (m : Message) (cs cs' : List Client)
    (hc : r.clients = some cs) (hc' : r'.clients = some cs')
    (h : r.sendMessage m = .ok r') :
    cs'.length = cs.length ∧
    (∀ j (hj : j < cs.length) (hj' : j < cs'.length),
      deliverTo m (cs.get ⟨j, hj⟩) = .ok (cs'.get ⟨j, hj'⟩)) ∧
    (∀ i (hi : i < cs.length) (hi' : i < cs'.length),
      some (cs.get ⟨i, hi⟩).id ≠ m.From →
      (cs.get ⟨i, hi⟩).sendClosed = false →
      sendCap ≤ (cs.get ⟨i, hi⟩).sendQueue.length →
      cs'.get ⟨i, hi'⟩ = (cs.get ⟨i, hi⟩).close ∧
      (cs'.get ⟨i, hi'⟩).connClosed = true ∧
      (cs'.get ⟨i, hi'⟩).sendClosed = false) := by
  unfold Room.sendMessage at h
  rw [hc] at h
  dsimp only at h
  cases hda : deliverAll m cs with
  | error e => rw [hda] at h; cases h
  | ok cs₀ =>
      rw [hda] at h
      cases h
      have hcs : cs₀ = cs' := by simpa using hc'
      subst hcs
      obtain ⟨hlen, hget⟩ := deliverAll_get m cs cs₀ hda
      refine ⟨hlen, hget, ?_⟩
      intro i hi hi' horig hcl hfull
      have hd := hget i hi hi'
      unfold deliverTo at hd
      rw [if_neg horig, hcl] at hd
      simp only [Bool.false_eq_true, if_false] at hd
      rw [if_pos hfull] at hd
      injection hd with hd
      have hne : (cs.get ⟨i, hi⟩).sendQueue ≠ [] := by
        intro hq
        rw [hq] at hfull
        simp [sendCap] at hfull
      cases hq : (cs.get ⟨i, hi⟩).sendQueue with
      | nil => exact absurd hq hne
      | cons a rest =>
          have hclose := Client.close_nonempty _ a rest hq
          refine ⟨hd.symm, ?_, ?_⟩
          · rw [← hd, hclose]
          · rw [← hd, hclose]
            exact hcl

/-- Claim C1 witness: in the concrete two-client room, the full-queue
client 2 ends up `close()`d — connection closed, queue still open. -/
theorem sendMessage_full_queue_drop_witness :
    [slowClientAfter, fastClient].get ⟨0, by decide⟩
        = ([slowClient, fastClient].get ⟨0, by decide⟩).close ∧
    ([slowClientAfter, fastClient].get ⟨0, by decide⟩).connClosed = true ∧
    ([slowClientAfter, fastClient].get ⟨0, by decide⟩).sendClosed = false :=
  (sendMessage_full_queue_drop c1Room c1RoomOut c1Msg [slowClient, fastClient]
      [slowClientAfter, fastClient] rfl rfl rfl).2.2
    0 (by decide) (by decide) (by decide) (by decide) (by decide)

/-! ### Claim C2 -/

def c2Pending : Message :=
  { type := "pause", From := none, time := 0, timestamp := 3, payload := "" }

/-- A client with one pending outbound message. -/
def c2Client : Client :=
  { id := 6, sendQueue := [c2Pending], sendClosed := false, connClosed := false }

/-- Claim C2 (code bug): `close()` guards against double-close with
`select { case <-c.send: default: close(c.send) }`, but a receive is
ready whenever the queue is non-empty, so closing a client that still
has a pending outbound message dequeues that message and never closes
the outbound queue: the queue is left open, contradicting the
idempotent-close intent documented on the client's mutex and in the
spec. -/
theorem close_nonempty_queue_left_open :
    c2Client.close = { c2Client with sendQueue := [], connClosed := true } ∧
    (c2Client.close).sendClosed = false ∧
    (c2Client.close).sendQueue = [] :=
  ⟨rfl, rfl, rfl⟩

/-! ### Claim C4 -/

/-- Claim C4: teardown executes at most once.  With the guard unset and
every registered client's queue open, `cleanup` closes every remaining
client's outbound queue and connection and sets the client set to the
nil map; a second `cleanup` on the result (and any call with the guard
already set) returns with no side effect. -/
theorem cleanup_at_most_once (r : Room)
    (hopen : ∀ c ∈ r.clients.getD [], c.sendClosed = false) :
    (r.cleaned = false →
      ∃ r₁, r.cleanup = .ok (r₁, (r.clients.getD []).map
              (fun c => { c with sendClosed := true, connClosed := true })) ∧
        r₁.cleaned = true ∧ r₁.clients = none ∧ r₁.cleanup = .ok (r₁, [])) ∧
    (r.cleaned = true → r.cleanup = .ok (r, [])) := by
  constructor
  · intro hcl
    refine ⟨{ r with cleaned := true, clients := none }, ?_, rfl, rfl, ?_⟩
    · unfold Room.cleanup
      rw [if_neg (by simp [hcl]), closeAllClients_open _ hopen]
    · unfold Room.cleanup
      rw [if_pos rfl]
  · intro hcl
    unfold Room.cleanup
    rw [if_pos hcl]

def c4Client : Client := { id := 8, sendQueue := [], sendClosed := false, connClosed := false }

def c4Room : Room :=
  { clients := some [c4Client], cleaned := false, cancelled := true, running := true }

/-- Claim C4 witness: a concrete room torn down once and then again. -/
theorem cleanup_at_most_once_witness :
    ∃ r₁, c4Room.cleanup
        = .ok (r₁, [{ c4Client with sendClosed := true, connClosed := true }]) ∧
      r₁.cleaned = true ∧ r₁.clients = none ∧ r₁.cleanup = .ok (r₁, []) :=
  (cleanup_at_most_once c4Room (by decide)).1 rfl

/-! ### Claim C10 -/

/-- Claim C10: `cleanup` installs the nil client map, so a subsequent
`registerClient` performs an unguarded write into a nil map (a runtime
panic); with the map still live, `registerClient` succeeds. -/
theorem register_after_cleanup_panics (r r₁ : Room) (closed : List Client) (c : Client)
    (hcl : r.cleaned = false) (h : r.cleanup = .ok (r₁, closed)) :
    r₁.registerClient c = .error "assignment to entry in nil map" ∧
    (∀ cs, r.clients = some cs → r.registerClient c = .ok { r with clients := some (cs ++ [c]) }) := by
  constructor
  · unfold Room.cleanup at h
    rw [if_neg (by simp [hcl])] at h
    cases hca : closeAllClients (r.clients.getD []) with
    | error e => rw [hca] at h; cases h
    | ok l =>
        rw [hca] at h
        have h₂ : ({ r with cleaned := true, clients := none }, l) = (r₁, closed) :=
          Except.ok.inj h
        have hr : r₁ = { r with cleaned := true, clients := none } :=
          (congrArg Prod.fst h₂).symm
        rw [hr]
        rfl
  · intro cs hcs
    unfold Room.registerClient
    rw [hcs]

def c10Room : Room :=
  { clients := some [], cleaned := false, cancelled := true, running := true }

def c10Client : Client := { id := 9, sendQueue := [], sendClosed := false, connClosed := false }

/-- Claim C10 witness: registering into the concrete room's post-teardown
state faults. -/
theorem register_after_cleanup_panics_witness :
    ({ c10Room with cleaned := true, clients := none } : Room).registerClient c10Client
      = .error "assignment to entry in nil map" :=
  (register_after_cleanup_panics c10Room
      { c10Room with cleaned := true, clients := none } [] c10Client rfl rfl).1

/-! ### Claim C9 -/

/-- A client whose outbound queue is full but open. -/
def c9Slow : Client :=
  { id := 4, sendQueue := List.replicate 10 fillMsg, sendClosed := false, connClosed := false }

def c9Msg : Message := { type := "pause", From := none, time := 0, timestamp := 2, payload := "" }

def c9Room : Room :=
  { clients := some [c9Slow], cleaned := false, cancelled := false, running := true }

/-- `c9Slow` after the drop branch ran `close()` on it. -/
def c9SlowAfter : Client :=
  { c9Slow with sendQueue := List.replicate 9 fillMsg, connClosed := true }

/-- Claim C9 counterexample: the broadcast drop branch does not itself
create a closed-queue-in-set state: after broadcasting to a room whose
sole client has a full open queue, that client's outbound queue is still
open — the drop branch's `close()` dequeued one message instead of
closing the queue. -/
theorem drop_policy_leaves_queue_open :
    c9Room.sendMessage c9Msg = .ok { c9Room with clients := some [c9SlowAfter] } ∧
    c9SlowAfter.sendClosed = false :=
  ⟨rfl, rfl⟩

/-- Claim C9 (amended): in any room state where some registered client
has a closed outbound queue — a state produced by `close()` running on an
empty queue while the client is still registered (write-loop exit), not
by the broadcast drop branch, which drains instead of closing — a
broadcast reaching that client faults with a send on a closed channel and
teardown faults with a close of a closed channel; both operations succeed
whenever no registered client has a closed queue. -/
theorem closed_queue_in_set_faults (r : Room) (m : Message) (cs : List Client)
    (hc : r.clients = some cs) :
    ((∃ c ∈ cs, c.sendClosed = true ∧ some c.id ≠ m.From) →
      r.sendMessage m = .error "send on closed channel") ∧
    (r.cleaned = false → (∃ c ∈ cs, c.sendClosed = true) →
      r.cleanup = .error "close of closed channel") ∧
    ((∀ c ∈ cs, c.sendClosed = false) →
      (∃ r₁, r.sendMessage m = .ok r₁) ∧ (∃ r₂ l, r.cleanup = .ok (r₂, l))) := by
  refine ⟨?_, ?_, ?_⟩
  · intro hex
    unfold Room.sendMessage
    rw [hc]
    dsimp only
    rw [deliverAll_closed_error m cs hex]
  · intro hcl hex
    unfold Room.cleanup
    rw [if_neg (by simp [hcl]), hc]
    dsimp only [Option.getD]
    rw [closeAllClients_closed_error cs hex]
  · intro hopen
    constructor
    · obtain ⟨cs', hcs'⟩ := deliverAll_open_ok m cs hopen
      refine ⟨{ r with clients := some cs' }, ?_⟩
      unfold Room.sendMessage
      rw [hc]
      dsimp only
      rw [hcs']
    · by_cases hcl : r.cleaned = true
      · exact ⟨r, [], by unfold Room.cleanup; rw [if_pos hcl]⟩
      · refine ⟨{ r with cleaned := true, clients := none },
          cs.map (fun c => { c with sendClosed := true, connClosed := true }), ?_⟩
        unfold Room.cleanup
        rw [if_neg hcl, hc]
        dsimp only [Option.getD]
        rw [closeAllClients_open cs hopen]

/-- A registered client whose outbound queue has already been closed. -/
def c9wClosed : Client := { id := 5, sendQueue := [], sendClosed := true, connClosed := true }

def c9wRoom : Room :=
  { clients := some [c9wClosed], cleaned := false, cancelled := false, running := true }

def c9wMsg : Message := { type := "play", From := none, time := 0, timestamp := 4, payload := "" }

/-- Claim C9 witness: with a closed-queue client registered, both
broadcast and teardown fault. -/
theorem closed_queue_in_set_faults_witness :
    c9wRoom.sendMessage c9wMsg = .error "send on closed channel" ∧
    c9wRoom.cleanup = .error "close of closed channel" :=
  ⟨(closed_queue_in_set_faults c9wRoom c9wMsg [c9wClosed] rfl).1
      ⟨c9wClosed, by simp, rfl, by decide⟩,
   (closed_queue_in_set_faults c9wRoom c9wMsg [c9wClosed] rfl).2.1 rfl
      ⟨c9wClosed, by simp, rfl⟩⟩

/-! ### Claim C5 -/

/-- Claim C5: `getRoom` rejects the empty key and leaves the directory
unchanged; for a non-empty key already present it returns the existing
room and leaves the directory unchanged; for an absent non-empty key it
creates exactly one room, maps the key to it, starts its event loop and
returns it. -/
theorem getRoom_spec (h : Hub) (key : String) :
    (key = "" → h.getRoom key = (none, h)) ∧
    (key ≠ "" → ∀ room, h.Rooms.lookup key = some room → h.getRoom key = (some room, h)) ∧
    (key ≠ "" → h.Rooms.lookup key = none →
      h.getRoom key = (some NewRoom.Run, ⟨h.Rooms ++ [(key, NewRoom.Run)]⟩) ∧
      (h.Rooms ++ [(key, NewRoom.Run)]).lookup key = some NewRoom.Run ∧
      NewRoom.Run.running = true) := by
  refine ⟨?_, ?_, ?_⟩
  · intro hk
    unfold Hub.getRoom
    rw [if_pos hk]
  · intro hk room hlook
    unfold Hub.getRoom
    rw [if_neg hk, hlook]
  · intro hk hlook
    refine ⟨?_, lookup_append_none h.Rooms key NewRoom.Run hlook, rfl⟩
    unfold Hub.getRoom
    rw [if_neg hk, hlook]

/-- Claim C5 witness: on an empty hub, key "abc" creates and starts one
room and maps the key to it. -/
theorem getRoom_spec_witness :
    Hub.getRoom ⟨[]⟩ "abc" = (some NewRoom.Run, ⟨[("abc", NewRoom.Run)]⟩) ∧
    ([("abc", NewRoom.Run)] : List (String × Room)).lookup "abc" = some NewRoom.Run :=
  ⟨((getRoom_spec ⟨[]⟩ "abc").2.2 (by decide) rfl).1,
   ((getRoom_spec ⟨[]⟩ "abc").2.2 (by decide) rfl).2.1⟩

end VideoRoom
